import Mathlib

/-!
Verification of the tank-tactics event-sourced game core.

The source is a TypeScript module.  The embedding below follows it
statement by statement:

* Instants (`submittedAt`, `startAt`, the query instant, schedule triggers)
  are ISO-8601 strings in the source and are only ever compared with
  `<`, `<=`, `>=`; for same-format ISO strings lexicographic comparison is
  chronological, so instants are embedded as `Nat` with the usual order.
* JavaScript numbers that the source treats as integers (coordinates,
  indices, AP, HP, range) are embedded as `Int`; unchecked negative values
  matter (`locRow` starts at `-1`, events may carry negative coordinates).
* A thrown `Error` is `Except.error` with that message; an out-of-bounds
  element access whose result is then dereferenced (a JS `TypeError`) is
  `Except.error "TypeError: cannot read properties of undefined"`.
* `processEvent` builds a deep copy `nextState` of its input and then,
  crucially, binds `pState` to `state.playerStates[event.player]` — an
  object of the *input* state — and mutates it in place.  A pure embedding
  must keep both effects, so `processEvent` here returns the pair
  `(input state after those in-place mutations, the returned nextState)`.
* `calculateState` similarly returns `(what the stored process.state object
  holds after the call, the function's return value)`, and is parameterized
  by the schedule trigger sequence (see `calcLoop`).
-/

namespace TankTactics

structure Player where
  id : String
deriving DecidableEq, Repr, Inhabited

structure Dimensions where
  height : Nat
  width : Nat
deriving DecidableEq, Repr, Inhabited

structure GameConfig where
  players : List Player
  dimensions : Dimensions
  startAt : Nat
  turnInterval : String
  turnIntervalTZ : String
deriving DecidableEq, Repr, Inhabited

structure GamePlayerState where
  placed : Bool
  alive : Bool
  disqualified : Bool
  locRow : Int
  locCol : Int
  range : Int
  ap : Int
  hp : Int
deriving DecidableEq, Repr, Inhabited

structure GameState where
  config : GameConfig
  playerStates : List GamePlayerState
  boardState : List (List (Option Int))
  votes : List (Option Int)
  winner : Option Int
deriving DecidableEq, Repr, Inhabited

inductive GameEvent
  | place (submittedAt : Nat) (player : Int) (row col : Int)
  | move (submittedAt : Nat) (player : Int) (dir : String)
  | fire (submittedAt : Nat) (player : Int) (target : Int)
  | vote (submittedAt : Nat) (player : Int) (target : Int)
  | giftAP (submittedAt : Nat) (player : Int) (target : Int)
  | giftHP (submittedAt : Nat) (player : Int) (target : Int)
  | upgrade (submittedAt : Nat) (player : Int)
  | tick (submittedAt : Nat)
deriving DecidableEq, Repr

def GameEvent.submittedAt : GameEvent → Nat
  | .place t _ _ _ => t
  | .move t _ _ => t
  | .fire t _ _ => t
  | .vote t _ _ => t
  | .giftAP t _ _ => t
  | .giftHP t _ _ => t
  | .upgrade t _ => t
  | .tick t => t

def GameEvent.isTick : GameEvent → Bool
  | .tick _ => true
  | _ => false

structure GameProcessState where
  state : GameState
  events : List GameEvent
  updatedAt : Nat
deriving DecidableEq, Repr, Inhabited

/-- JS `list[i]` for a possibly negative `Int` index: `none` when the access
is out of bounds (JS `undefined`). -/
def listGet? {α : Type} (l : List α) (i : Int) : Option α :=
  if 0 ≤ i then l.get? i.toNat else none

/-- Dereferencing a JS indexed access: out of bounds throws a `TypeError`. -/
def jsIdx {α : Type} (l : List α) (i : Int) : Except String α :=
  match listGet? l i with
  | none => .error "TypeError: cannot read properties of undefined"
  | some a => .ok a

/-- `state.playerStates[player]` followed by the disqualification guard
(source lines binding `pState` and checking `pState.disqualified`). -/
def actorState (state : GameState) (player : Int) : Except String GamePlayerState :=
  match listGet? state.playerStates player with
  | none => .error "TypeError: cannot read properties of undefined"
  | some pState =>
    if pState.disqualified then .error "invalid action: player has been disqualified"
    else .ok pState

/-- Writing `state.playerStates[player] = ps` (the in-place mutation of the
actor object; `player` is in range whenever this is reached). -/
def setPlayer (state : GameState) (player : Int) (ps : GamePlayerState) : GameState :=
  { state with
    playerStates :=
      if 0 ≤ player then state.playerStates.set player.toNat ps else state.playerStates }

/-- `boardState[r][c]`: a missing row is a `TypeError`; a missing cell in an
existing row reads as `undefined`, which the source treats like `null`. -/
def boardGet (b : List (List (Option Int))) (r c : Int) : Except String (Option Int) :=
  match listGet? b r with
  | none => .error "TypeError: cannot read properties of undefined"
  | some row =>
    match listGet? row c with
    | none => .ok none
    | some cell => .ok cell

/-- `boardState[r][c] = v`: a missing row is a `TypeError`; every write the
source performs is within an existing row after its bounds checks. -/
def boardSet (b : List (List (Option Int))) (r c : Int) (v : Option Int) :
    Except String (List (List (Option Int))) :=
  match listGet? b r with
  | none => .error "TypeError: cannot read properties of undefined"
  | some row =>
    if 0 ≤ c then .ok (b.set r.toNat (row.set c.toNat v))
    else .ok b

/-- `votes[player] = v` (reached only with `player` a valid index). -/
def voteSet (votes : List (Option Int)) (player : Int) (v : Option Int) :
    List (Option Int) :=
  if 0 ≤ player then votes.set player.toNat v else votes

/-- `playerStates.map((p, i) => (p.alive ? i : null)).filter(x => x != null)`,
written as a recursion carrying the index. -/
def survivorsFrom (i : Nat) : List GamePlayerState → List Int
  | [] => []
  | ps :: rest =>
    if ps.alive then (i : Int) :: survivorsFrom (i + 1) rest
    else survivorsFrom (i + 1) rest

def survivors (l : List GamePlayerState) : List Int := survivorsFrom 0 l

/-- The winner computation shared by the TICK branch and the epilogue of
every other event: one survivor wins, zero survivors is `-1`, otherwise the
freshly initialized `null` is kept. -/
def decideWinner (l : List GamePlayerState) : Option Int :=
  match survivors l with
  | [w] => some w
  | [] => some (-1)
  | _ => none

/-- Epilogue of every non-TICK event: recompute `nextState.winner` from the
survivors of `nextState.playerStates`.  The first component is the input
state after the in-place `pState` mutations; the second is the returned
`nextState`. -/
def finishAction (mutated next : GameState) : GameState × GameState :=
  (mutated, { next with winner := decideWinner next.playerStates })

/-- The TICK vote tally: for each vote slot `i` the source reads
`playerStates[i]` (a `TypeError` when missing), counts the vote only when
the voter is dead but not disqualified, the slot is non-null, and
`playerStates[v]` (a `TypeError` when `v` is out of bounds) is alive. -/
def tallyVotes (ps1 : List GamePlayerState) :
    Nat → List (Option Int) → List Nat → Except String (List Nat)
  | _, [], counts => .ok counts
  | i, v :: rest, counts =>
    match ps1.get? i with
    | none => .error "TypeError: cannot read properties of undefined"
    | some voter =>
      if !voter.disqualified && !voter.alive then
        match v with
        | none => tallyVotes ps1 (i + 1) rest counts
        | some tv =>
          match listGet? ps1 tv with
          | none => .error "TypeError: cannot read properties of undefined"
          | some tps =>
            if tps.alive then
              tallyVotes ps1 (i + 1) rest (counts.set tv.toNat (counts.getD tv.toNat 0 + 1))
            else tallyVotes ps1 (i + 1) rest counts
      else tallyVotes ps1 (i + 1) rest counts

/-- The TICK AP grant: every alive, placed player gains `1 + floor(votes/3)`
AP; the recursion carries the player index. -/
def grantAP (voteCounts : List Nat) : Nat → List GamePlayerState → List GamePlayerState
  | _, [] => []
  | i, ps :: rest =>
    (if !ps.alive || !ps.placed then ps
     else { ps with ap := ps.ap + 1 + ((voteCounts.getD i 0 / 3 : Nat) : Int) }) ::
    grantAP voteCounts (i + 1) rest

/-- The TICK branch: disqualify the unplaced, tally votes, grant AP, reset
votes, evaluate the win condition.  It mutates only `nextState`, so the
input state is returned unchanged as the first component. -/
def applyTick (state nextState : GameState) : Except String (GameState × GameState) :=
  let ps1 := nextState.playerStates.map fun ps =>
    if ps.placed then ps else { ps with alive := false, disqualified := true }
  match tallyVotes ps1 0 nextState.votes (ps1.map fun _ => 0) with
  | .error msg => .error msg
  | .ok voteCounts =>
    let ps2 := grantAP voteCounts 0 ps1
    let votes2 := nextState.votes.map fun _ => none
    .ok (state, { nextState with playerStates := ps2, votes := votes2, winner := decideWinner ps2 })

def applyPlace (player : Int) (pState : GamePlayerState) (row col : Int)
    (state nextState : GameState) : Except String (GameState × GameState) :=
  if pState.placed then .error "invalid action: player already placed"
  else if pState.ap < 1 then .error "invalid action: player does not have sufficient AP"
  else if row ≥ (nextState.config.dimensions.height : Int) - 1
      ∨ col ≥ (nextState.config.dimensions.width : Int)
      ∨ row < 0 ∨ col < 0 then .error "invalid placement: out of bounds"
  else
    match boardGet nextState.boardState row col with
    | .error msg => .error msg
    | .ok cell =>
      if cell ≠ none then .error "invalid placement: space already occupied"
      else
        let mutated := setPlayer state player { pState with placed := true }
        match boardSet nextState.boardState row col (some player) with
        | .error msg => .error msg
        | .ok board2 => .ok (finishAction mutated { nextState with boardState := board2 })

def getVector (v : String) : Option (Int × Int) :=
  if v = "UP" then some (-1, 0)
  else if v = "LEFT" then some (0, -1)
  else if v = "RIGHT" then some (-1, 0)
  else if v = "DOWN" then some (1, 0)
  else none

def applyMove (player : Int) (pState : GamePlayerState) (dir : String)
    (state nextState : GameState) : Except String (GameState × GameState) :=
  if !pState.placed then .error "invalid movement: player has not yet placed"
  else if !pState.alive then .error "invalid movement: player has already died"
  else if pState.ap < 1 then .error "invalid action: player does not have sufficient AP"
  else
    match getVector dir with
    | none => .error "invalid movement"
    | some vec =>
      let row := pState.locRow + vec.1
      let col := pState.locCol + vec.2
      if row ≥ (nextState.config.dimensions.height : Int) - 1
          ∨ col ≥ (nextState.config.dimensions.width : Int)
          ∨ row < 0 ∨ col < 0 then .error "invalid movement: out of bounds"
      else
        match boardGet nextState.boardState row col with
        | .error msg => .error msg
        | .ok cell =>
          if cell ≠ none then .error "invalid movement: space already occupied"
          else
            let mutated := setPlayer state player
              { pState with ap := pState.ap - 1, locRow := row, locCol := col }
            match boardSet nextState.boardState pState.locRow pState.locCol none with
            | .error msg => .error msg
            | .ok b1 =>
              match boardSet b1 row col (some player) with
              | .error msg => .error msg
              | .ok b2 => .ok (finishAction mutated { nextState with boardState := b2 })

/-- The distance used by FIRE and both gifts, with the source's formula
`max(|t.col − p.col|, |t.row − p.col|)` (the second term reuses the actor's
column). -/
def targetDistance (t pState : GamePlayerState) : Nat :=
  max (t.locCol - pState.locCol).natAbs (t.locRow - pState.locCol).natAbs

/-- Writing `nextState.playerStates[target] = t` (reached only with
`target` a valid index, after the target bounds check). -/
def playersSet (l : List GamePlayerState) (i : Int) (ps : GamePlayerState) :
    List GamePlayerState :=
  if 0 ≤ i then l.set i.toNat ps else l

def applyFire (player : Int) (pState : GamePlayerState) (target : Int)
    (state nextState : GameState) : Except String (GameState × GameState) :=
  if pState.ap < 1 then .error "invalid action: player does not have sufficient AP"
  else if target < 0 ∨ target > (state.playerStates.length : Int) - 1 then
    .error "invalid action: invalid player target"
  else
    match jsIdx nextState.playerStates target with
    | .error msg => .error msg
    | .ok t =>
      if (targetDistance t pState : Int) > pState.range then
        .error "invalid action: target out of range"
      else
        let t1 := { t with hp := t.hp - 1 }
        if t1.hp ≤ 0 then
          -- target dies: the vote-clearing `votes.map(...)` in the source is
          -- computed but its result is discarded, so `votes` is unchanged;
          -- `pState.ap += t.ap` lands on the input state's actor object.
          let t2 := { t1 with alive := false, ap := 0 }
          let mutated := setPlayer state player { pState with ap := pState.ap - 1 + t.ap }
          let next := { nextState with
            playerStates := playersSet nextState.playerStates target t2 }
          .ok (finishAction mutated next)
        else
          let mutated := setPlayer state player { pState with ap := pState.ap - 1 }
          let next := { nextState with
            playerStates := playersSet nextState.playerStates target t1 }
          .ok (finishAction mutated next)

def applyGiftAP (player : Int) (pState : GamePlayerState) (target : Int)
    (state nextState : GameState) : Except String (GameState × GameState) :=
  if pState.ap < 1 then .error "invalid action: player does not have sufficient AP"
  else if target < 0 ∨ target > (state.playerStates.length : Int) - 1 then
    .error "invalid action: invalid player target"
  else
    match jsIdx nextState.playerStates target with
    | .error msg => .error msg
    | .ok t =>
      if !t.alive then .error "invalid action: target is already dead"
      else if (targetDistance t pState : Int) > pState.range then
        .error "invalid action: target out of range"
      else
        let mutated := setPlayer state player { pState with ap := pState.ap - 1 }
        let next := { nextState with
          playerStates := playersSet nextState.playerStates target { t with ap := t.ap + 1 } }
        .ok (finishAction mutated next)

def applyGiftHP (player : Int) (pState : GamePlayerState) (target : Int)
    (state nextState : GameState) : Except String (GameState × GameState) :=
  -- the source gates on `pState.hp` although the message mentions AP
  if pState.hp < 1 then .error "invalid action: player does not have sufficient AP"
  else if target < 0 ∨ target > (state.playerStates.length : Int) - 1 then
    .error "invalid action: invalid player target"
  else
    match jsIdx nextState.playerStates target with
    | .error msg => .error msg
    | .ok t =>
      if (targetDistance t pState : Int) > pState.range then
        .error "invalid action: target out of range"
      else
        let newHp := pState.hp - 1
        let mutated := setPlayer state player
          { pState with hp := newHp, alive := if newHp ≤ 0 then false else pState.alive }
        let next := { nextState with
          playerStates := playersSet nextState.playerStates target { t with hp := t.hp + 1 } }
        .ok (finishAction mutated next)

def applyUpgrade (player : Int) (pState : GamePlayerState)
    (state nextState : GameState) : Except String (GameState × GameState) :=
  if pState.ap < 3 then .error "invalid action: player does not have sufficient AP"
  else
    let mutated := setPlayer state player { pState with ap := pState.ap - 3, range := pState.range + 1 }
    .ok (finishAction mutated nextState)

def applyVote (player : Int) (pState : GamePlayerState) (target : Int)
    (state nextState : GameState) : Except String (GameState × GameState) :=
  if pState.alive then .error "invalid action: you may only vote when dead"
  else if (listGet? nextState.votes player).join ≠ none then
    .error "invalid action: you may only vote once per round"
  -- `Number.isInteger(target)` and `Number.isNaN(target)` always hold for an
  -- embedded `Int`; the remaining disjuncts are the source's gate verbatim.
  else if target < 0 ∨ target < (state.playerStates.length : Int) - 1 then
    .error "invalid action: invalid target player"
  else .ok (finishAction state { nextState with votes := voteSet nextState.votes player (some target) })

/-- The transition function (source `processEvent`).  The deep copies the
source takes of `config`, `playerStates`, `boardState` and `votes` are the
identity on values; `winner` is freshly initialized to `null`.  The result
pairs the input state after the in-place `pState` mutations with the
returned `nextState`. -/
def processEvent (event : GameEvent) (state : GameState) :
    Except String (GameState × GameState) :=
  if state.winner ≠ none then .error "game already complete"
  else if event.submittedAt ≤ state.config.startAt then .error "game has not yet started"
  else
    let nextState : GameState := { state with winner := none }
    match event with
    | .tick _ => applyTick state nextState
    | .place _ player row col =>
      match actorState state player with
      | .error msg => .error msg
      | .ok pState => applyPlace player pState row col state nextState
    | .move _ player dir =>
      match actorState state player with
      | .error msg => .error msg
      | .ok pState => applyMove player pState dir state nextState
    | .fire _ player target =>
      match actorState state player with
      | .error msg => .error msg
      | .ok pState => applyFire player pState target state nextState
    | .vote _ player target =>
      match actorState state player with
      | .error msg => .error msg
      | .ok pState => applyVote player pState target state nextState
    | .giftAP _ player target =>
      match actorState state player with
      | .error msg => .error msg
      | .ok pState => applyGiftAP player pState target state nextState
    | .giftHP _ player target =>
      match actorState state player with
      | .error msg => .error msg
      | .ok pState => applyGiftHP player pState target state nextState
    | .upgrade _ player =>
      match actorState state player with
      | .error msg => .error msg
      | .ok pState => applyUpgrade player pState state nextState

/-- The per-player initial record from `initGame` (lines 147–156). -/
def initPS : GamePlayerState :=
  { placed := false, alive := true, disqualified := false,
    locRow := -1, locCol := -1, range := 2, ap := 0, hp := 0 }

/-- `initGame` (the `typia.is<GameConfig>` runtime type check always holds
for a well-typed configuration value).  Board rows are created as sparse
arrays whose cells all read as empty. -/
def initGame (config : GameConfig) : GameState :=
  let outputConfig : GameConfig :=
    { config with
      players := config.players.map fun p => { id := p.id }
      dimensions := { height := config.dimensions.height, width := config.dimensions.width } }
  let playerStates := config.players.map fun _ => initPS
  { config := outputConfig
    playerStates := playerStates
    boardState :=
      List.replicate outputConfig.dimensions.height
        (List.replicate outputConfig.dimensions.width (none : Option Int))
    votes := playerStates.map fun _ => none
    winner := none }

def initProcess (state : GameState) : GameProcessState :=
  { state := state, events := [], updatedAt := state.config.startAt }

/-- Insertion into a `submittedAt`-sorted list; `[...events].sort((a, b) =>
a.submittedAt < b.submittedAt ? -1 : 1)` sorts by instant (the inconsistent
comparator leaves the order of equal instants implementation-defined; every
property proved below depends only on the result being instant-sorted with
a minimal head). -/
def insertByTime (e : GameEvent) : List GameEvent → List GameEvent
  | [] => [e]
  | x :: xs =>
    if e.submittedAt ≤ x.submittedAt then e :: x :: xs else x :: insertByTime e xs

def sortEvents (l : List GameEvent) : List GameEvent := l.foldr insertByTime []

/-- `processEvents` (source lines 405–428).  Note the source builds
`nextProcess` with the appended, sorted log and also opens the schedule
iterator, but then returns the *original* `process`; the embedding keeps the
dead binding.  (`parseExpression` is a black-box schedule parser, assumed to
accept the configured expression.) -/
def processEvents (process : GameProcessState) (events : List GameEvent) :
    Except String GameProcessState :=
  if events.isEmpty then .ok process
  else
    let sorted := sortEvents events
    match sorted with
    | [] => .ok process
    | first :: _ =>
      if first.submittedAt ≤ process.updatedAt then
        .error "invalid events: retroactive events detected"
      else
        let _nextProcess := { process with events := process.events ++ sorted }
        .ok process

/-- The event choice at the head of each loop iteration: when the log is
exhausted, or the next submitted event's instant is not strictly later than
the pending tick (`currentEvent.submittedAt <= nextTick`), the synthesized
TICK is chosen and the tick cursor advances; otherwise the submitted event
is chosen and the log cursor advances.  Returns
`(chosen event, next tick index, next log index)`. -/
def pickEvent (ticks : Nat → Nat) (events : List GameEvent) (tickIdx i : Nat) :
    GameEvent × Nat × Nat :=
  match events.get? i with
  | none => (GameEvent.tick (ticks tickIdx), tickIdx + 1, i)
  | some ev =>
    if ev.submittedAt ≤ ticks tickIdx then (GameEvent.tick (ticks tickIdx), tickIdx + 1, i)
    else (ev, tickIdx, i + 1)

/-- The replay loop of `calculateState`, fuel-indexed (`none` = fuel ran
out; the source loop runs until the chosen instant exceeds the query
instant).  `ticks` models the black-box schedule sequence: `ticks k` is the
value of the `k`-th pull of `interval.next()` — _Modelled from the spec_,
§4.1 Schedule Driver: a lazy, infinite, forward-only sequence of trigger
instants.  `tickIdx` is the index of the pending `nextTick`; `i` is the
cursor into the submitted log.  `cur` is `currentState`; `procSt` is what
the stored `process.state` object holds (it changes when the first applied
event mutates its input in place, see `processEvent`); `applied` records
whether some event has been applied yet.  On normal exit the result is
`(procSt, currentState)`. -/
def calcLoop (ticks : Nat → Nat) (untilT : Nat) (events : List GameEvent) (updatedAt : Nat) :
    Nat → Nat → Nat → GameState → GameState → Bool →
    Option (Except String (GameState × GameState))
  | 0, _, _, _, _, _ => none
  | fuel + 1, tickIdx, i, cur, procSt, applied =>
    let pick := pickEvent ticks events tickIdx i
    if updatedAt ≥ pick.1.submittedAt then
      calcLoop ticks untilT events updatedAt fuel pick.2.1 pick.2.2 cur procSt applied
    else if pick.1.submittedAt > untilT ∨ cur.winner ≠ none then
      some (.ok (procSt, cur))
    else
      match processEvent pick.1 cur with
      | .error msg => some (.error msg)
      | .ok (mutSt, next) =>
        calcLoop ticks untilT events updatedAt fuel pick.2.1 pick.2.2 next
          (if applied then procSt else mutSt) true

/-- `calculateState(at, process)`: the first pull of the iterator happens
before the loop, so the pending tick starts at `ticks 0`. -/
def calculateState (ticks : Nat → Nat) (att : Nat) (process : GameProcessState)
    (fuel : Nat) : Option (Except String (GameState × GameState)) :=
  calcLoop ticks att process.events process.updatedAt fuel 0 0 process.state process.state false

def isErr {α : Type} : Except String α → Bool
  | .error _ => true
  | .ok _ => false

/-- States reachable from `initGame config` through successful transitions
(the returned `nextState` of each step). -/
inductive Reachable (c : GameConfig) : GameState → Prop
  | init : Reachable c (initGame c)
  | step {s e mutSt next} : Reachable c s → processEvent e s = .ok (mutSt, next) → Reachable c next

/-! Concrete fixtures for the evaluated runs. -/

/-- A 4×4 two-player configuration starting at instant 0. -/
def demoConfig : GameConfig :=
  { players := [{ id := "a" }, { id := "b" }]
    dimensions := { height := 4, width := 4 }
    startAt := 0
    turnInterval := "0 0 * * *"
    turnIntervalTZ := "UTC" }

/-- The same configuration with a third player. -/
def demoConfig3 : GameConfig :=
  { demoConfig with players := [{ id := "a" }, { id := "b" }, { id := "c" }] }

def emptyRow4 : List (Option Int) := [none, none, none, none]

/-- Both players placed and alive: player 0 at (0,0) with 5 AP, player 1 at (2,2). -/
def twoPlacedState : GameState :=
  { config := demoConfig
    playerStates :=
      [ { placed := true, alive := true, disqualified := false,
          locRow := 0, locCol := 0, range := 2, ap := 5, hp := 3 },
        { placed := true, alive := true, disqualified := false,
          locRow := 2, locCol := 2, range := 2, ap := 0, hp := 3 } ]
    boardState := [[some 0, none, none, none], emptyRow4, [none, none, some 1, none], emptyRow4]
    votes := [none, none]
    winner := none }

/-- Player 0 not yet placed but holding 1 AP; player 1 placed at (2,2). -/
def placeReadyState : GameState :=
  { twoPlacedState with
    playerStates :=
      [ { placed := false, alive := true, disqualified := false,
          locRow := -1, locCol := -1, range := 2, ap := 1, hp := 3 },
        { placed := true, alive := true, disqualified := false,
          locRow := 2, locCol := 2, range := 2, ap := 0, hp := 3 } ]
    boardState := [emptyRow4, emptyRow4, [none, none, some 1, none], emptyRow4] }

/-- Player 0 placed at (1,1) with 5 AP; player 1 placed at (3,3). -/
def moveReadyState : GameState :=
  { twoPlacedState with
    playerStates :=
      [ { placed := true, alive := true, disqualified := false,
          locRow := 1, locCol := 1, range := 2, ap := 5, hp := 3 },
        { placed := true, alive := true, disqualified := false,
          locRow := 3, locCol := 3, range := 2, ap := 0, hp := 3 } ]
    boardState := [emptyRow4, [none, some 0, none, none], emptyRow4, [none, none, none, some 1]] }

/-- Three placed players; player 1 is at 1 HP with 4 AP and within range of
player 0; one vote cast by player 1 and one vote referencing player 1. -/
def fireKillState : GameState :=
  { config := demoConfig3
    playerStates :=
      [ { placed := true, alive := true, disqualified := false,
          locRow := 0, locCol := 0, range := 2, ap := 5, hp := 3 },
        { placed := true, alive := true, disqualified := false,
          locRow := 1, locCol := 1, range := 2, ap := 4, hp := 1 },
        { placed := true, alive := true, disqualified := false,
          locRow := 0, locCol := 2, range := 2, ap := 2, hp := 3 } ]
    boardState := [[some 0, none, some 2, none], [none, some 1, none, none], emptyRow4, emptyRow4]
    votes := [none, some 2, some 1]
    winner := none }

def demoProcess : GameProcessState := initProcess (initGame demoConfig)

/-- The record every player carries after the first tick disqualifies the
still-unplaced. -/
def deadPS : GamePlayerState := { initPS with alive := false, disqualified := true }

/-- A state shaped like `initGame`: no winner, every player still the
initial record, all vote slots empty, one slot per player. -/
def InitLike (s : GameState) : Prop :=
  s.winner = none
  ∧ (∀ ps ∈ s.playerStates, ps = initPS)
  ∧ (∀ v ∈ s.votes, v = none)
  ∧ s.votes.length = s.playerStates.length

/-- A state as left by a tick on an `InitLike` state: everyone disqualified
and dead, winner `-1`. -/
def PostTick (s : GameState) : Prop :=
  s.winner = some (-1)
  ∧ ∀ ps ∈ s.playerStates, ps.placed = false ∧ ps.alive = false ∧ ps.disqualified = true
      ∧ ps.ap = 0 ∧ ps.hp = 0

/-- The state returned by a tick on the fresh two-player game. -/
def tickOnInit : GameState :=
  match processEvent (GameEvent.tick 5) (initGame demoConfig) with
  | .ok p => p.2
  | .error _ => initGame demoConfig

/-- The dead-but-not-disqualified player used for the VOTE runs. -/
def votingDeadPS : GamePlayerState :=
  { placed := true, alive := false, disqualified := false,
    locRow := 1, locCol := 1, range := 2, ap := 0, hp := 0 }

/-- Three players, player 1 dead but not disqualified with an empty vote
slot: exactly a state in which a VOTE by player 1 reaches the target gate. -/
def voteReadyState : GameState :=
  { config := demoConfig3
    playerStates :=
      [ { placed := true, alive := true, disqualified := false,
          locRow := 0, locCol := 0, range := 2, ap := 5, hp := 3 },
        votingDeadPS,
        { placed := true, alive := true, disqualified := false,
          locRow := 0, locCol := 2, range := 2, ap := 2, hp := 3 } ]
    boardState := [[some 0, none, some 2, none], [none, none, none, none],
                   emptyRow4, emptyRow4]
    votes := [none, none, none]
    winner := none }

/-- Three players satisfying the HP/liveness invariant: players 0 and 1
alive with 3 HP, player 2 dead at 0 HP. -/
def hpInvState : GameState :=
  { config := demoConfig3
    playerStates :=
      [ { placed := true, alive := true, disqualified := false,
          locRow := 0, locCol := 0, range := 2, ap := 0, hp := 3 },
        { placed := true, alive := true, disqualified := false,
          locRow := 1, locCol := 1, range := 2, ap := 0, hp := 3 },
        { placed := true, alive := false, disqualified := false,
          locRow := 2, locCol := 2, range := 2, ap := 0, hp := 0 } ]
    boardState := [[some 0, none, none, none], [none, some 1, none, none],
                   [none, none, some 2, none], emptyRow4]
    votes := [none, none, none]
    winner := none }

/-- The state returned by a tick on `hpInvState`. -/
def hpInvAfterTick : GameState :=
  match processEvent (GameEvent.tick 5) hpInvState with
  | .ok p => p.2
  | .error _ => hpInvState

/-- `twoPlacedState` with the winner already decided. -/
def decidedState : GameState := { twoPlacedState with winner := some 0 }

/-- `twoPlacedState` with the game not yet started at instant 3. -/
def lateStartState : GameState :=
  { twoPlacedState with config := { demoConfig with startAt := 10 } }

/-- Board cell read used in theorem statements. -/
def cellAt (s : GameState) (r c : Nat) : Option Int :=
  match s.boardState.get? r with
  | none => none
  | some row => match row.get? c with | none => none | some cell => cell

/-- Projection of a replay result to `(range, ap)` per player of the final
returned state. -/
def finalRangesAP (r : Option (Except String (GameState × GameState))) :
    Option (Except String (List (Int × Int))) :=
  r.map fun x => x.map fun p => p.2.playerStates.map fun ps => (ps.range, ps.ap)

/-- Projection of a replay result to `(range, ap)` per player of the stored
process state after the call (first component). -/
def procStateRangesAP (r : Option (Except String (GameState × GameState))) :
    Option (Except String (List (Int × Int))) :=
  r.map fun x => x.map fun p => p.1.playerStates.map fun ps => (ps.range, ps.ap)

end TankTactics

namespace TankTactics

/-! Claim theorems. -/

/-- Claim C1.  Refuted run: one submitted event (UPGRADE by player 0) at
instant 2, strictly after the process's last-processed instant 0 and before
the query instant 7, with scheduled ticks at 3, 6, 9, ….  The claim says
the replay applies the submitted event exactly once (before the tick at 3,
since 2 < 3).  The loop instead synthesizes the TICK whenever the submitted
event's instant is not strictly *later* than the pending tick
(`currentEvent.submittedAt <= nextTick`), so the event is never consumed:
the final state shows two applied ticks and no UPGRADE — player 0 keeps
range 2 with AP 5+1+1 = 7, while an applied UPGRADE would give range 3 and
AP 5−3+1+1 = 4. -/
theorem C1_replay_skips_event :
    finalRangesAP (calculateState (fun n => 3 + 3 * n) 7
        { state := twoPlacedState, events := [GameEvent.upgrade 2 0], updatedAt := 0 } 20)
      = some (.ok [(2, 7), (2, 2)]) := rfl

/-- Claim C2.  Refuted run: a singleton batch whose event instant 5 is
strictly after `updatedAt = 0` is accepted, but the returned process is the
*original* one with its empty log — the appended `nextProcess` is computed
and discarded.  The retroactive rejection half does hold: an event at
instant 0 (not strictly after `updatedAt`) fails. -/
theorem C2_append_discarded :
    processEvents demoProcess [GameEvent.upgrade 5 0] = .ok demoProcess
    ∧ demoProcess.events = []
    ∧ processEvents demoProcess [GameEvent.upgrade 0 0]
        = .error "invalid events: retroactive events detected" := ⟨rfl, rfl, rfl⟩

/-- Claim C4.  Refuted run: a PLACE by the unplaced player 0 (1 AP) at the
in-bounds empty cell (1,1) succeeds; the returned state holds the actor's
index in the cell but its `placed` flag is still `false` — the flag was set
on the *input* state's player object (third component). -/
theorem C4_place_flag_lost :
    (processEvent (GameEvent.place 5 0 1 1) placeReadyState).map
        (fun p => ((p.2.playerStates.map fun ps => ps.placed), cellAt p.2 1 1,
                   (p.1.playerStates.map fun ps => ps.placed)))
      = .ok ([false, true], some 0, [true, true]) := rfl

/-- Claim C5.  Run: a MOVE with direction "RIGHT" from (1,1).  The returned
board holds the actor at (0,1) — one row up, confirming the RIGHT ↦ UP
vector — and vacates (1,1), with (1,2) still empty.  But the returned
state's actor still has coordinates (1,1) and AP 5: the AP deduction and
coordinate update were applied to the *input* state's player object (last
component shows (0,1) and AP 4 there). -/
theorem C5_move_right_goes_up_effects_lost :
    (processEvent (GameEvent.move 5 0 "RIGHT") moveReadyState).map
        (fun p => (cellAt p.2 0 1, cellAt p.2 1 1, cellAt p.2 1 2,
                   (p.2.playerStates.map fun ps => (ps.locRow, ps.locCol, ps.ap)),
                   (p.1.playerStates.map fun ps => (ps.locRow, ps.locCol, ps.ap))))
      = .ok (some 0, none, none, [(1, 1, 5), (3, 3, 0)], [(0, 1, 4), (3, 3, 0)]) := rfl

/-- Claim C6.  Refuted run: player 0 (5 AP) fires at player 1 (4 AP, 1 HP)
within range; the target drops to 0 HP.  In the returned state the target is
not alive with AP 0 (as claimed), but the votes cast by or referencing the
target are *not* cleared (`votes.map(...)` is discarded) and the actor's AP
is still 5 — the transfer 5−1+4 = 8 lands on the *input* state's actor
object (last component). -/
theorem C6_fire_elimination_incomplete :
    (processEvent (GameEvent.fire 5 0 1) fireKillState).map
        (fun p => ((p.2.playerStates.map fun ps => (ps.alive, ps.ap, ps.hp)), p.2.votes,
                   (p.1.playerStates.getD 0 default).ap))
      = .ok ([(true, 5, 3), (false, 0, 0), (true, 2, 3)], [none, some 2, some 1], 8) := rfl

/-- Claim C8.  Refuted run: a replay whose first applied event is a
successful UPGRADE mutates the stored process's state object: after the
call the process state's player 0 has range 3 and AP 2, while it held
range 2 and AP 5 before the call. -/
theorem C8_process_state_mutated :
    procStateRangesAP (calculateState (fun n => 3 + 10 * n) 9
        { state := twoPlacedState, events := [GameEvent.upgrade 5 0], updatedAt := 0 } 20)
      = some (.ok [(3, 2), (2, 0)])
    ∧ (twoPlacedState.playerStates.map fun ps => (ps.range, ps.ap)) = [(2, 5), (2, 0)] :=
  ⟨rfl, rfl⟩

/-! Helper lemmas. -/

theorem listGet?_mem {α : Type} {l : List α} {i : Int} {a : α}
    (h : listGet? l i = some a) : a ∈ l := by
  unfold listGet? at h
  split at h
  · exact List.get?_mem h
  · exact absurd h (by simp)

theorem isErr_ne_ok {α : Type} {x : Except String α} (h : isErr x = true) (a : α) :
    x ≠ .ok a := by
  cases x with
  | error msg => simp
  | ok b => simp [isErr] at h

theorem processEvent_complete_err {e : GameEvent} {s : GameState} (h : s.winner ≠ none) :
    processEvent e s = .error "game already complete" := by
  unfold processEvent
  rw [if_pos h]

theorem processEvent_early_err {e : GameEvent} {s : GameState}
    (h : e.submittedAt ≤ s.config.startAt) : isErr (processEvent e s) = true := by
  unfold processEvent
  by_cases hw : s.winner ≠ none
  · rw [if_pos hw]; rfl
  · rw [if_neg hw, if_pos h]; rfl

theorem calcLoop_winner_stops (ticks : Nat → Nat) (untilT : Nat) (events : List GameEvent)
    (updatedAt : Nat) :
    ∀ (fuel tickIdx i : Nat) (cur procSt : GameState) (applied : Bool)
      (r : Except String (GameState × GameState)),
      cur.winner ≠ none →
      calcLoop ticks untilT events updatedAt fuel tickIdx i cur procSt applied = some r →
      r = .ok (procSt, cur) := by
  intro fuel
  induction fuel with
  | zero =>
    intro tickIdx i cur procSt applied r _ hr
    simp [calcLoop] at hr
  | succ n ih =>
    intro tickIdx i cur procSt applied r hw hr
    simp only [calcLoop] at hr
    split at hr
    · exact ih _ _ _ _ _ _ hw hr
    · split at hr
      · exact (Option.some.inj hr).symm
      · next hcond => exact absurd (Or.inr hw) hcond

/-- Claim C9: once `winner` is non-null every event is rejected; every
event at or before `config.startAt` is rejected; and the replay loop, on a
state with a decided winner, stops and returns that state without applying
anything (hence the state never changes after the winner is decided). -/
theorem C9_terminal_closure :
    (∀ (e : GameEvent) (s : GameState), s.winner ≠ none → isErr (processEvent e s) = true)
    ∧ (∀ (e : GameEvent) (s : GameState), e.submittedAt ≤ s.config.startAt →
        isErr (processEvent e s) = true)
    ∧ (∀ (ticks : Nat → Nat) (untilT : Nat) (events : List GameEvent)
        (updatedAt fuel tickIdx i : Nat) (cur procSt : GameState) (applied : Bool)
        (r : Except String (GameState × GameState)),
        cur.winner ≠ none →
        calcLoop ticks untilT events updatedAt fuel tickIdx i cur procSt applied = some r →
        r = .ok (procSt, cur)) := by
  refine ⟨?_, ?_, ?_⟩
  · intro e s h
    rw [processEvent_complete_err h]; rfl
  · intro e s h
    exact processEvent_early_err h
  · intro ticks untilT events updatedAt fuel tickIdx i cur procSt applied r hw hr
    exact calcLoop_winner_stops ticks untilT events updatedAt fuel tickIdx i cur procSt
      applied r hw hr

/-- Witness for C9 at concrete inputs: a tick on a state with a decided
winner fails, an UPGRADE submitted at instant 3 on a game starting at 10
fails, and the replay loop on the decided state returns it unchanged. -/
theorem C9_terminal_closure_witness :
    isErr (processEvent (GameEvent.tick 5) decidedState) = true
    ∧ isErr (processEvent (GameEvent.upgrade 3 0) lateStartState) = true
    ∧ (Except.ok (decidedState, decidedState) :
        Except String (GameState × GameState)) = .ok (decidedState, decidedState) := by
  refine ⟨C9_terminal_closure.1 _ _ (by decide), C9_terminal_closure.2.1 _ _ (by decide), ?_⟩
  exact C9_terminal_closure.2.2 (fun n => 3 + 3 * n) 10 [] 0 5 0 0 decidedState decidedState
    false _ (by decide) rfl

/-- Claim C10: a VOTE by a dead, non-disqualified player with an empty vote
slot is gated exactly by `0 ≤ target` together with the source's comparison
`target < playerStates.length - 1` used as the failure condition — so only
targets at or above the highest index pass — and a passing target is
recorded in the actor's vote slot of the returned state.  (The source's
`Number.isInteger`/`Number.isNaN` checks hold for every embedded integer.) -/
theorem C10_vote_gate (s : GameState) (subAt : Nat) (actor t : Int)
    (pState : GamePlayerState)
    (hw : s.winner = none) (hstart : s.config.startAt < subAt)
    (hactor : listGet? s.playerStates actor = some pState)
    (hdq : pState.disqualified = false) (halive : pState.alive = false)
    (hvoted : (listGet? s.votes actor).join = none) :
    ((t < 0 ∨ t < (s.playerStates.length : Int) - 1) →
      processEvent (GameEvent.vote subAt actor t) s
        = .error "invalid action: invalid target player")
    ∧ (0 ≤ t → (s.playerStates.length : Int) - 1 ≤ t →
      processEvent (GameEvent.vote subAt actor t) s
        = .ok (s, { s with votes := voteSet s.votes actor (some t),
                           winner := decideWinner s.playerStates })) := by
  have hsub : ¬ ((GameEvent.vote subAt actor t).submittedAt ≤ s.config.startAt) := by
    simp only [GameEvent.submittedAt]
    omega
  constructor
  · intro hcond
    unfold processEvent
    rw [if_neg (by simp [hw]), if_neg hsub]
    show (match actorState s actor with
      | .error msg => Except.error msg
      | .ok pSt => applyVote actor pSt t s { s with winner := none }) = _
    unfold actorState
    rw [hactor]
    simp only [hdq, Bool.false_eq_true, if_false]
    unfold applyVote
    rw [if_neg (by simp [halive]), if_neg (fun hcon => hcon hvoted), if_pos hcond]
  · intro h0 hlen
    unfold processEvent
    rw [if_neg (by simp [hw]), if_neg hsub]
    show (match actorState s actor with
      | .error msg => Except.error msg
      | .ok pSt => applyVote actor pSt t s { s with winner := none }) = _
    unfold actorState
    rw [hactor]
    simp only [hdq, Bool.false_eq_true, if_false]
    unfold applyVote
    rw [if_neg (by simp [halive]), if_neg (fun hcon => hcon hvoted), if_neg (by omega)]
    rfl

/-- Witness for C10 at concrete inputs: with three players, the dead player
1 voting for player 0 fails the inverted gate, while voting for the
highest-index player 2 succeeds and records the vote. -/
theorem C10_vote_gate_witness :
    processEvent (GameEvent.vote 5 1 0) voteReadyState
      = .error "invalid action: invalid target player"
    ∧ processEvent (GameEvent.vote 5 1 2) voteReadyState
      = .ok (voteReadyState,
          { voteReadyState with votes := voteSet voteReadyState.votes 1 (some 2),
                                winner := decideWinner voteReadyState.playerStates }) := by
  constructor
  · exact (C10_vote_gate voteReadyState 5 1 0 votingDeadPS rfl (by decide) rfl rfl rfl
      rfl).1 (by decide)
  · exact (C10_vote_gate voteReadyState 5 1 2 votingDeadPS rfl (by decide) rfl rfl rfl
      rfl).2 (by decide) (by decide)

theorem initGame_initLike (c : GameConfig) : InitLike (initGame c) := by
  refine ⟨rfl, ?_, ?_, ?_⟩
  · intro ps hps
    simp only [initGame, List.mem_map] at hps
    obtain ⟨p, _, h⟩ := hps
    exact h.symm
  · intro v hv
    simp only [initGame, List.mem_map] at hv
    obtain ⟨p, _, h⟩ := hv
    exact h.symm
  · simp [initGame]

/-- On an `InitLike` state every non-TICK event fails: MOVE needs placement,
VOTE needs death, PLACE / FIRE / GIFT_AP / UPGRADE need AP and GIFT_HP needs
HP, all of which the initial player record lacks. -/
theorem initLike_nonTick_err {s : GameState} (h : InitLike s) (e : GameEvent)
    (hnt : e.isTick = false) : isErr (processEvent e s) = true := by
  obtain ⟨hw, hps, hv, hlen⟩ := h
  cases e with
  | tick t => simp [GameEvent.isTick] at hnt
  | place t p r cl =>
    by_cases hsub : (GameEvent.place t p r cl).submittedAt ≤ s.config.startAt
    · exact processEvent_early_err hsub
    · cases hA : listGet? s.playerStates p with
      | none => simp [processEvent, actorState, hw, hsub, hA, isErr]
      | some pState =>
        have hi := hps pState (listGet?_mem hA)
        subst hi
        simp [processEvent, actorState, hw, hsub, hA, applyPlace, initPS, isErr]
  | move t p dir =>
    by_cases hsub : (GameEvent.move t p dir).submittedAt ≤ s.config.startAt
    · exact processEvent_early_err hsub
    · cases hA : listGet? s.playerStates p with
      | none => simp [processEvent, actorState, hw, hsub, hA, isErr]
      | some pState =>
        have hi := hps pState (listGet?_mem hA)
        subst hi
        simp [processEvent, actorState, hw, hsub, hA, applyMove, initPS, isErr]
  | fire t p tg =>
    by_cases hsub : (GameEvent.fire t p tg).submittedAt ≤ s.config.startAt
    · exact processEvent_early_err hsub
    · cases hA : listGet? s.playerStates p with
      | none => simp [processEvent, actorState, hw, hsub, hA, isErr]
      | some pState =>
        have hi := hps pState (listGet?_mem hA)
        subst hi
        simp [processEvent, actorState, hw, hsub, hA, applyFire, initPS, isErr]
  | vote t p tg =>
    by_cases hsub : (GameEvent.vote t p tg).submittedAt ≤ s.config.startAt
    · exact processEvent_early_err hsub
    · cases hA : listGet? s.playerStates p with
      | none => simp [processEvent, actorState, hw, hsub, hA, isErr]
      | some pState =>
        have hi := hps pState (listGet?_mem hA)
        subst hi
        simp [processEvent, actorState, hw, hsub, hA, applyVote, initPS, isErr]
  | giftAP t p tg =>
    by_cases hsub : (GameEvent.giftAP t p tg).submittedAt ≤ s.config.startAt
    · exact processEvent_early_err hsub
    · cases hA : listGet? s.playerStates p with
      | none => simp [processEvent, actorState, hw, hsub, hA, isErr]
      | some pState =>
        have hi := hps pState (listGet?_mem hA)
        subst hi
        simp [processEvent, actorState, hw, hsub, hA, applyGiftAP, initPS, isErr]
  | giftHP t p tg =>
    by_cases hsub : (GameEvent.giftHP t p tg).submittedAt ≤ s.config.startAt
    · exact processEvent_early_err hsub
    · cases hA : listGet? s.playerStates p with
      | none => simp [processEvent, actorState, hw, hsub, hA, isErr]
      | some pState =>
        have hi := hps pState (listGet?_mem hA)
        subst hi
        simp [processEvent, actorState, hw, hsub, hA, applyGiftHP, initPS, isErr]
  | upgrade t p =>
    by_cases hsub : (GameEvent.upgrade t p).submittedAt ≤ s.config.startAt
    · exact processEvent_early_err hsub
    · cases hA : listGet? s.playerStates p with
      | none => simp [processEvent, actorState, hw, hsub, hA, isErr]
      | some pState =>
        have hi := hps pState (listGet?_mem hA)
        subst hi
        simp [processEvent, actorState, hw, hsub, hA, applyUpgrade, initPS, isErr]

theorem tallyVotes_cons (ps1 : List GamePlayerState) (i : Nat) (v : Option Int)
    (rest : List (Option Int)) (counts : List Nat) :
    tallyVotes ps1 i (v :: rest) counts =
      match ps1.get? i with
      | none => .error "TypeError: cannot read properties of undefined"
      | some voter =>
        if !voter.disqualified && !voter.alive then
          match v with
          | none => tallyVotes ps1 (i + 1) rest counts
          | some tv =>
            match listGet? ps1 tv with
            | none => .error "TypeError: cannot read properties of undefined"
            | some tps =>
              if tps.alive then
                tallyVotes ps1 (i + 1) rest (counts.set tv.toNat (counts.getD tv.toNat 0 + 1))
              else tallyVotes ps1 (i + 1) rest counts
        else tallyVotes ps1 (i + 1) rest counts := rfl

theorem tallyVotes_all_none (ps1 : List GamePlayerState) :
    ∀ (l : List (Option Int)) (i : Nat) (counts : List Nat),
      (∀ v ∈ l, v = none) → i + l.length ≤ ps1.length →
      tallyVotes ps1 i l counts = .ok counts := by
  intro l
  induction l with
  | nil => intro i counts _ _; rfl
  | cons v rest ih =>
    intro i counts hl hlen
    have hv : v = none := hl v (by simp)
    subst hv
    have hi : i < ps1.length := by simp only [List.length_cons] at hlen; omega
    have hrec := ih (i + 1) counts (fun w hw => hl w (by simp [hw]))
      (by simp only [List.length_cons] at hlen ⊢; omega)
    rw [tallyVotes_cons, List.get?_eq_get hi]
    dsimp only
    split <;> exact hrec

theorem grantAP_all_dead (counts : List Nat) :
    ∀ (l : List GamePlayerState) (i : Nat), (∀ ps ∈ l, ps.alive = false) →
      grantAP counts i l = l := by
  intro l
  induction l with
  | nil => intro i _; rfl
  | cons ps rest ih =>
    intro i h
    have hps : ps.alive = false := h ps (by simp)
    unfold grantAP
    rw [ih (i + 1) (fun q hq => h q (by simp [hq]))]
    simp [hps]

theorem survivorsFrom_all_dead :
    ∀ (l : List GamePlayerState) (i : Nat), (∀ ps ∈ l, ps.alive = false) →
      survivorsFrom i l = [] := by
  intro l
  induction l with
  | nil => intro i _; rfl
  | cons ps rest ih =>
    intro i h
    have hps : ps.alive = false := h ps (by simp)
    unfold survivorsFrom
    rw [ih (i + 1) (fun q hq => h q (by simp [hq]))]
    simp [hps]

/-- A successful TICK on an `InitLike` state disqualifies and kills every
(unplaced) player and decides the winner as `-1`. -/
theorem initLike_tick {s : GameState} (h : InitLike s) {t : Nat} {mutSt next : GameState}
    (hstep : processEvent (GameEvent.tick t) s = .ok (mutSt, next)) :
    PostTick next := by
  obtain ⟨hw, hps, hv, hlen⟩ := h
  unfold processEvent at hstep
  rw [if_neg (by simp [hw])] at hstep
  by_cases hsub : (GameEvent.tick t).submittedAt ≤ s.config.startAt
  · rw [if_pos hsub] at hstep; exact absurd hstep (by simp)
  rw [if_neg hsub] at hstep
  replace hstep : applyTick s { s with winner := none } = .ok (mutSt, next) := hstep
  have hps1 : ∀ ps ∈ s.playerStates.map (fun ps =>
      if ps.placed then ps else { ps with alive := false, disqualified := true }), ps = deadPS := by
    intro ps hmem
    obtain ⟨a, ha, rfl⟩ := List.mem_map.mp hmem
    rw [hps a ha]
    rfl
  have hdead : ∀ q ∈ s.playerStates.map (fun ps =>
      if ps.placed then ps else { ps with alive := false, disqualified := true }),
      q.alive = false := fun q hq => by rw [hps1 q hq]; rfl
  simp only [applyTick] at hstep
  rw [tallyVotes_all_none (s.playerStates.map (fun ps =>
      if ps.placed then ps else { ps with alive := false, disqualified := true }))
      s.votes 0 _ hv (by simp [hlen])] at hstep
  dsimp only at hstep
  rw [grantAP_all_dead _ _ 0 hdead] at hstep
  have hwinner : decideWinner (s.playerStates.map (fun ps =>
      if ps.placed then ps else { ps with alive := false, disqualified := true })) = some (-1) := by
    unfold decideWinner survivors
    rw [survivorsFrom_all_dead _ 0 hdead]
  rw [hwinner] at hstep
  simp only [Except.ok.injEq, Prod.mk.injEq] at hstep
  obtain ⟨-, hnext⟩ := hstep
  subst hnext
  refine ⟨rfl, ?_⟩
  intro ps hmem
  rw [hps1 ps hmem]
  exact ⟨rfl, rfl, rfl, rfl, rfl⟩

/-- Every state reachable from `initGame` is either still initial-shaped or
the terminal all-disqualified state left by the first tick. -/
theorem reachable_inv {c : GameConfig} {s : GameState} (h : Reachable c s) :
    InitLike s ∨ PostTick s := by
  induction h with
  | init => exact Or.inl (initGame_initLike c)
  | @step s₀ e mutSt next hr hstep ih =>
    cases ih with
    | inl hIL =>
      cases e with
      | tick t => exact Or.inr (initLike_tick hIL hstep)
      | place t p r cl =>
        exact absurd hstep
          (isErr_ne_ok (initLike_nonTick_err hIL (GameEvent.place t p r cl) rfl) _)
      | move t p dir =>
        exact absurd hstep
          (isErr_ne_ok (initLike_nonTick_err hIL (GameEvent.move t p dir) rfl) _)
      | fire t p tg =>
        exact absurd hstep
          (isErr_ne_ok (initLike_nonTick_err hIL (GameEvent.fire t p tg) rfl) _)
      | vote t p tg =>
        exact absurd hstep
          (isErr_ne_ok (initLike_nonTick_err hIL (GameEvent.vote t p tg) rfl) _)
      | giftAP t p tg =>
        exact absurd hstep
          (isErr_ne_ok (initLike_nonTick_err hIL (GameEvent.giftAP t p tg) rfl) _)
      | giftHP t p tg =>
        exact absurd hstep
          (isErr_ne_ok (initLike_nonTick_err hIL (GameEvent.giftHP t p tg) rfl) _)
      | upgrade t p =>
        exact absurd hstep
          (isErr_ne_ok (initLike_nonTick_err hIL (GameEvent.upgrade t p) rfl) _)
    | inr hPT =>
      have hw : s₀.winner ≠ none := by rw [hPT.1]; simp
      rw [processEvent_complete_err hw] at hstep
      exact absurd hstep (by simp)

/-- Claim C3: `initGame` gives every player 0 AP and 0 HP; in every state
reachable from it by successful transitions every non-TICK event fails and
no player is ever placed; and any successfully applied TICK leaves every
player disqualified and dead with winner `-1`. -/
theorem C3_initial_deadlock (c : GameConfig) :
    (∀ ps ∈ (initGame c).playerStates, ps.ap = 0 ∧ ps.hp = 0)
    ∧ (∀ s, Reachable c s → ∀ e, e.isTick = false → isErr (processEvent e s) = true)
    ∧ (∀ s, Reachable c s → ∀ ps ∈ s.playerStates, ps.placed = false)
    ∧ (∀ s, Reachable c s → ∀ (t : Nat) (mutSt next : GameState),
        processEvent (GameEvent.tick t) s = .ok (mutSt, next) →
        next.winner = some (-1)
        ∧ ∀ ps ∈ next.playerStates, ps.disqualified = true ∧ ps.alive = false) := by
  refine ⟨?_, ?_, ?_, ?_⟩
  · intro ps hmem
    rw [(initGame_initLike c).2.1 ps hmem]
    exact ⟨rfl, rfl⟩
  · intro s hs e hnt
    cases reachable_inv hs with
    | inl hIL => exact initLike_nonTick_err hIL e hnt
    | inr hPT =>
      have hw : s.winner ≠ none := by rw [hPT.1]; simp
      rw [processEvent_complete_err hw]
      rfl
  · intro s hs ps hmem
    cases reachable_inv hs with
    | inl hIL => rw [hIL.2.1 ps hmem]; rfl
    | inr hPT => exact (hPT.2 ps hmem).1
  · intro s hs t mutSt next hstep
    cases reachable_inv hs with
    | inl hIL =>
      have hPT := initLike_tick hIL hstep
      exact ⟨hPT.1, fun ps hmem => ⟨(hPT.2 ps hmem).2.2.1, (hPT.2 ps hmem).2.1⟩⟩
    | inr hPT =>
      have hw : s.winner ≠ none := by rw [hPT.1]; simp
      rw [processEvent_complete_err hw] at hstep
      exact absurd hstep (by simp)

/-- Witness for C3 at concrete inputs: on the fresh two-player game a PLACE
by player 0 fails, and the tick at instant 5 decides the winner as `-1`. -/
theorem C3_initial_deadlock_witness :
    isErr (processEvent (GameEvent.place 5 0 0 0) (initGame demoConfig)) = true
    ∧ tickOnInit.winner = some (-1) := by
  refine ⟨(C3_initial_deadlock demoConfig).2.1 _ Reachable.init _ rfl, ?_⟩
  exact ((C3_initial_deadlock demoConfig).2.2.2 _ Reachable.init 5
    (initGame demoConfig) tickOnInit rfl).1

theorem jsIdx_mem {α : Type} {l : List α} {i : Int} {a : α} (h : jsIdx l i = .ok a) :
    a ∈ l := by
  unfold jsIdx at h
  split at h
  · exact absurd h (by simp)
  · next b heq =>
    obtain rfl : b = a := by simpa using h
    exact listGet?_mem heq

theorem mem_playersSet {l : List GamePlayerState} {i : Int} {x ps : GamePlayerState}
    (h : ps ∈ playersSet l i x) : ps ∈ l ∨ ps = x := by
  unfold playersSet at h
  split at h
  · exact List.mem_or_eq_of_mem_set h
  · exact Or.inl h

theorem mem_grantAP {counts : List Nat} :
    ∀ {l : List GamePlayerState} {i : Nat} {ps : GamePlayerState},
      ps ∈ grantAP counts i l → ∃ q ∈ l, ps.alive = q.alive ∧ ps.hp = q.hp := by
  intro l
  induction l with
  | nil => intro i ps h; simp [grantAP] at h
  | cons q rest ih =>
    intro i ps h
    unfold grantAP at h
    rcases List.mem_cons.mp h with h1 | h2
    · subst h1
      refine ⟨q, by simp, ?_⟩
      split <;> simp
    · obtain ⟨q', hq', hh⟩ := ih h2
      exact ⟨q', by simp [hq'], hh⟩

/-- A TICK preserves the HP/liveness invariant: it only kills unplaced
players and adjusts AP. -/
theorem applyTick_inv {s ns m n : GameState}
    (hinv : ∀ ps ∈ ns.playerStates, ps.hp ≤ 0 → ps.alive = false)
    (h : applyTick s ns = .ok (m, n)) :
    ∀ ps ∈ n.playerStates, ps.hp ≤ 0 → ps.alive = false := by
  simp only [applyTick] at h
  split at h
  · exact absurd h (by simp)
  · simp only [Except.ok.injEq, Prod.mk.injEq] at h
    obtain ⟨-, hn⟩ := h
    subst hn
    intro ps hmem hhp
    obtain ⟨q, hq, ha, hh⟩ := mem_grantAP hmem
    obtain ⟨a, haa, rfl⟩ := List.mem_map.mp hq
    by_cases hp : a.placed
    · rw [if_pos hp] at ha hh
      rw [ha]
      exact hinv a haa (hh ▸ hhp)
    · rw [if_neg hp] at ha
      simpa using ha

theorem applyPlace_players {p rw_ cl : Int} {pState : GamePlayerState} {s ns m n : GameState}
    (h : applyPlace p pState rw_ cl s ns = .ok (m, n)) :
    n.playerStates = ns.playerStates := by
  simp only [applyPlace] at h
  repeat' split at h
  any_goals exact Except.noConfusion h
  simp only [finishAction, Except.ok.injEq, Prod.mk.injEq] at h
  obtain ⟨-, hn⟩ := h
  subst hn
  rfl

theorem applyMove_players {p : Int} {dir : String} {pState : GamePlayerState}
    {s ns m n : GameState} (h : applyMove p pState dir s ns = .ok (m, n)) :
    n.playerStates = ns.playerStates := by
  simp only [applyMove] at h
  repeat' split at h
  any_goals exact Except.noConfusion h
  simp only [finishAction, Except.ok.injEq, Prod.mk.injEq] at h
  obtain ⟨-, hn⟩ := h
  subst hn
  rfl

theorem applyUpgrade_players {p : Int} {pState : GamePlayerState} {s ns m n : GameState}
    (h : applyUpgrade p pState s ns = .ok (m, n)) : n.playerStates = ns.playerStates := by
  simp only [applyUpgrade] at h
  split at h
  · exact absurd h (by simp)
  · simp only [finishAction, Except.ok.injEq, Prod.mk.injEq] at h
    obtain ⟨-, hn⟩ := h
    subst hn
    rfl

theorem applyVote_players {p tg : Int} {pState : GamePlayerState} {s ns m n : GameState}
    (h : applyVote p pState tg s ns = .ok (m, n)) : n.playerStates = ns.playerStates := by
  simp only [applyVote] at h
  repeat' split at h
  any_goals exact Except.noConfusion h
  simp only [finishAction, Except.ok.injEq, Prod.mk.injEq] at h
  obtain ⟨-, hn⟩ := h
  subst hn
  rfl

/-- A FIRE preserves the HP/liveness invariant: the only changed player is
the target, which is marked not-alive exactly when its HP drops to ≤ 0. -/
theorem applyFire_inv {p tg : Int} {pState : GamePlayerState} {s ns m n : GameState}
    (hinv : ∀ ps ∈ ns.playerStates, ps.hp ≤ 0 → ps.alive = false)
    (h : applyFire p pState tg s ns = .ok (m, n)) :
    ∀ ps ∈ n.playerStates, ps.hp ≤ 0 → ps.alive = false := by
  simp only [applyFire] at h
  split at h
  · exact absurd h (by simp)
  split at h
  · exact absurd h (by simp)
  split at h
  · exact absurd h (by simp)
  rename_i t hjs
  split at h
  · exact absurd h (by simp)
  split at h
  · -- the target's HP dropped to ≤ 0 and it is marked not-alive
    simp only [finishAction, Except.ok.injEq, Prod.mk.injEq] at h
    obtain ⟨-, hn⟩ := h
    subst hn
    intro ps hmem hhp
    rcases mem_playersSet hmem with hold | hnew
    · exact hinv ps hold hhp
    · simp [hnew]
  · rename_i hnk
    simp only [finishAction, Except.ok.injEq, Prod.mk.injEq] at h
    obtain ⟨-, hn⟩ := h
    subst hn
    intro ps hmem hhp
    rcases mem_playersSet hmem with hold | hnew
    · exact hinv ps hold hhp
    · rw [hnew] at hhp
      exact absurd (by simpa using hhp) (by simpa using hnk)

/-- A GIFT_AP preserves the HP/liveness invariant: only the target's AP
changes. -/
theorem applyGiftAP_inv {p tg : Int} {pState : GamePlayerState} {s ns m n : GameState}
    (hinv : ∀ ps ∈ ns.playerStates, ps.hp ≤ 0 → ps.alive = false)
    (h : applyGiftAP p pState tg s ns = .ok (m, n)) :
    ∀ ps ∈ n.playerStates, ps.hp ≤ 0 → ps.alive = false := by
  simp only [applyGiftAP] at h
  split at h
  · exact absurd h (by simp)
  split at h
  · exact absurd h (by simp)
  split at h
  · exact absurd h (by simp)
  rename_i t hjs
  split at h
  · exact absurd h (by simp)
  split at h
  · exact absurd h (by simp)
  simp only [finishAction, Except.ok.injEq, Prod.mk.injEq] at h
  obtain ⟨-, hn⟩ := h
  subst hn
  intro ps hmem hhp
  rcases mem_playersSet hmem with hold | hnew
  · exact hinv ps hold hhp
  · rw [hnew] at hhp ⊢
    exact hinv t (jsIdx_mem hjs) (by simpa using hhp)

/-- A GIFT_HP preserves the HP/liveness invariant: the target's HP only
increases. -/
theorem applyGiftHP_inv {p tg : Int} {pState : GamePlayerState} {s ns m n : GameState}
    (hinv : ∀ ps ∈ ns.playerStates, ps.hp ≤ 0 → ps.alive = false)
    (h : applyGiftHP p pState tg s ns = .ok (m, n)) :
    ∀ ps ∈ n.playerStates, ps.hp ≤ 0 → ps.alive = false := by
  simp only [applyGiftHP] at h
  split at h
  · exact absurd h (by simp)
  split at h
  · exact absurd h (by simp)
  split at h
  · exact absurd h (by simp)
  rename_i t hjs
  split at h
  · exact absurd h (by simp)
  simp only [finishAction, Except.ok.injEq, Prod.mk.injEq] at h
  obtain ⟨-, hn⟩ := h
  subst hn
  intro ps hmem hhp
  rcases mem_playersSet hmem with hold | hnew
  · exact hinv ps hold hhp
  · rw [hnew]
    have : t.hp ≤ 0 := by
      have := hhp
      rw [hnew] at this
      simp only at this
      omega
    exact hinv t (jsIdx_mem hjs) this

/-- Claim C7, counterexample: in the state produced by `initGame` every
player has 0 HP (≤ 0) yet `alive = true`, so the invariant as stated fails
already at initialization. -/
theorem C7_init_violates :
    ¬ (∀ ps ∈ (initGame demoConfig).playerStates, ps.hp ≤ 0 → ps.alive = false) := by
  intro h
  have := h initPS (by decide) (by decide)
  exact absurd this (by decide)

/-- Claim C7 (amended): every *successful transition* preserves the
invariant that a player with HP ≤ 0 is not alive — the invariant fails in
the `initGame` state itself (all players start at 0 HP alive), but any
state satisfying it keeps satisfying it across `processEvent`. -/
theorem C7_hp_invariant_preserved (e : GameEvent) (s mutSt next : GameState)
    (hinv : ∀ ps ∈ s.playerStates, ps.hp ≤ 0 → ps.alive = false)
    (hstep : processEvent e s = .ok (mutSt, next)) :
    ∀ ps ∈ next.playerStates, ps.hp ≤ 0 → ps.alive = false := by
  unfold processEvent at hstep
  split at hstep
  · exact absurd hstep (by simp)
  split at hstep
  · exact absurd hstep (by simp)
  have hinv' : ∀ ps ∈ ({ s with winner := none } : GameState).playerStates,
      ps.hp ≤ 0 → ps.alive = false := hinv
  cases e with
  | tick t => exact applyTick_inv hinv' hstep
  | place t p r cl =>
    replace hstep : (match actorState s p with
        | .error msg => (Except.error msg : Except String (GameState × GameState))
        | .ok pState => applyPlace p pState r cl s { s with winner := none })
        = .ok (mutSt, next) := hstep
    cases hA : actorState s p with
    | error msg => rw [hA] at hstep; exact absurd hstep (by simp)
    | ok pState =>
      rw [hA] at hstep
      rw [applyPlace_players hstep]
      exact hinv'
  | move t p dir =>
    replace hstep : (match actorState s p with
        | .error msg => (Except.error msg : Except String (GameState × GameState))
        | .ok pState => applyMove p pState dir s { s with winner := none })
        = .ok (mutSt, next) := hstep
    cases hA : actorState s p with
    | error msg => rw [hA] at hstep; exact absurd hstep (by simp)
    | ok pState =>
      rw [hA] at hstep
      rw [applyMove_players hstep]
      exact hinv'
  | fire t p tg =>
    replace hstep : (match actorState s p with
        | .error msg => (Except.error msg : Except String (GameState × GameState))
        | .ok pState => applyFire p pState tg s { s with winner := none })
        = .ok (mutSt, next) := hstep
    cases hA : actorState s p with
    | error msg => rw [hA] at hstep; exact absurd hstep (by simp)
    | ok pState =>
      rw [hA] at hstep
      exact applyFire_inv hinv' hstep
  | vote t p tg =>
    replace hstep : (match actorState s p with
        | .error msg => (Except.error msg : Except String (GameState × GameState))
        | .ok pState => applyVote p pState tg s { s with winner := none })
        = .ok (mutSt, next) := hstep
    cases hA : actorState s p with
    | error msg => rw [hA] at hstep; exact absurd hstep (by simp)
    | ok pState =>
      rw [hA] at hstep
      rw [applyVote_players hstep]
      exact hinv'
  | giftAP t p tg =>
    replace hstep : (match actorState s p with
        | .error msg => (Except.error msg : Except String (GameState × GameState))
        | .ok pState => applyGiftAP p pState tg s { s with winner := none })
        = .ok (mutSt, next) := hstep
    cases hA : actorState s p with
    | error msg => rw [hA] at hstep; exact absurd hstep (by simp)
    | ok pState =>
      rw [hA] at hstep
      exact applyGiftAP_inv hinv' hstep
  | giftHP t p tg =>
    replace hstep : (match actorState s p with
        | .error msg => (Except.error msg : Except String (GameState × GameState))
        | .ok pState => applyGiftHP p pState tg s { s with winner := none })
        = .ok (mutSt, next) := hstep
    cases hA : actorState s p with
    | error msg => rw [hA] at hstep; exact absurd hstep (by simp)
    | ok pState =>
      rw [hA] at hstep
      exact applyGiftHP_inv hinv' hstep
  | upgrade t p =>
    replace hstep : (match actorState s p with
        | .error msg => (Except.error msg : Except String (GameState × GameState))
        | .ok pState => applyUpgrade p pState s { s with winner := none })
        = .ok (mutSt, next) := hstep
    cases hA : actorState s p with
    | error msg => rw [hA] at hstep; exact absurd hstep (by simp)
    | ok pState =>
      rw [hA] at hstep
      rw [applyUpgrade_players hstep]
      exact hinv'

/-- Witness for C7 (amended) at concrete inputs: `hpInvState` satisfies the
invariant, the tick at instant 5 succeeds on it, and in the resulting state
the dead player 2 (0 HP) is still not alive. -/
theorem C7_hp_invariant_preserved_witness :
    (hpInvAfterTick.playerStates.getD 2 default).alive = false := by
  have h := C7_hp_invariant_preserved (GameEvent.tick 5) hpInvState hpInvState
    hpInvAfterTick (by decide) rfl
  exact h _ (by decide) (by decide)

end TankTactics
